import Mathlib

/-!
Verification of the StarryOS dynamic-instrumentation subsystem (kprobe /
kretprobe auxiliary, BPF map and program file wrappers, perf-event layer,
tracepoint trace files) against its natural-language specification.

The Rust sources are shallowly embedded: each Rust function that a theorem
mentions is translated into an executable Lean definition that follows the
source line by line; state that the kernel keeps behind locks or statics is
passed explicitly.  Definitions whose doc comment starts with
`Modelled from the spec:` stand for code of the repository (or of the
`kbpf_basic` / `tracepoint` / `rbpf` support crates) that is absent from the
source snapshot; those follow the specification's words instead.
-/

/- ===================== Error taxonomy ===================== -/

/-- Linux errno values that the source passes through `AxError::Other`
(`axerrno::LinuxError`), restricted to the variants used by
`bpferror_to_axerr`. -/
inductive LinuxError where
  | E2BIG
  | EAGAIN
deriving DecidableEq, Repr

/-- The host error taxonomy (`axerrno::AxError`), restricted to the variants
reachable in the embedded code paths. -/
inductive AxError where
  | InvalidInput
  | NotFound
  | OperationNotSupported
  | NoMemory
  | BadFileDescriptor
  | PermissionDenied
  | Other (e : LinuxError)
deriving DecidableEq, Repr

/-- `kbpf_basic::BpfError`: the error type returned by BPF map and program
operations (declared by the crate, matched exhaustively in
src/modules/kebpf/src/tansform.rs). -/
inductive BpfError where
  | InvalidArgument
  | NotFound
  | NotSupported
  | NoSpace
  | TooBig
  | TryAgain
deriving DecidableEq, Repr

/-- `bpferror_to_axerr` (src/modules/kebpf/src/tansform.rs:11-20): the
translation of the BPF error taxonomy into host errors. -/
def bpferror_to_axerr : BpfError → AxError
  | .InvalidArgument => .InvalidInput
  | .NotFound => .NotFound
  | .NotSupported => .OperationNotSupported
  | .NoSpace => .NoMemory
  | .TooBig => .Other .E2BIG
  | .TryAgain => .Other .EAGAIN

/-- `bpferror_to_axresult` (src/modules/kebpf/src/tansform.rs:7-9). -/
def bpferror_to_axresult (e : BpfError) : Except AxError Int :=
  .error (bpferror_to_axerr e)

/-- The surfacing of one map command's result through the `bpf` syscall
dispatcher (src/modules/kebpf/src/lib.rs:35-86): every map command is wrapped
as `...map_or_else(bpferror_to_axresult, |_| Ok(0))`, so an underlying
`Result<_, BpfError>` becomes either the translated host error or `0`. -/
def bpf_map_cmd_surface (r : Except BpfError Unit) : Except AxError Int :=
  match r with
  | .ok _ => .ok 0
  | .error e => bpferror_to_axresult e

/- ===================== BPF map file wrapper (C9) ===================== -/

/-- Modelled from the spec: `Kstat` (the file-metadata record of
src/api/src/file, absent from the snapshot).  Claim C9 depends only on `stat`
returning the `Default` value, so the record carries representative numeric
fields that default to zero. -/
structure Kstat where
  ino : Nat := 0
  mode : Nat := 0
  size : Nat := 0
deriving DecidableEq, Repr

/-- The `Default::default()` `Kstat` returned by `BpfMap::stat`. -/
def Kstat.default : Kstat := {}

/-- `BpfMap` (src/api/src/bpf/map.rs:15-18): the file-like wrapper around a
`UnifiedMap`.  The map contents are embedded as an association list of raw
key/value byte strings; the file operations below never touch it. -/
structure BpfMap where
  unified_map : List (List Nat × List Nat)
deriving DecidableEq, Repr

/-- `<BpfMap as FileLike>::read` (src/api/src/bpf/map.rs:43-45): always
`Err(OperationNotSupported)`, for any destination buffer. -/
def BpfMap.read (_self : BpfMap) (_dst : List Nat) : Except AxError Nat :=
  .error .OperationNotSupported

/-- `<BpfMap as FileLike>::write` (src/api/src/bpf/map.rs:47-49): always
`Err(OperationNotSupported)`, for any source buffer. -/
def BpfMap.write (_self : BpfMap) (_src : List Nat) : Except AxError Nat :=
  .error .OperationNotSupported

/-- `<BpfMap as FileLike>::stat` (src/api/src/bpf/map.rs:51-53):
`Ok(Kstat::default())`. -/
def BpfMap.stat (_self : BpfMap) : Except AxError Kstat :=
  .ok Kstat.default

/-- `<BpfMap as FileLike>::path` (src/api/src/bpf/map.rs:59-61). -/
def BpfMap.path (_self : BpfMap) : String :=
  "anon_inode:[bpf_map]"

/- ===================== trace file (C7) ===================== -/

/-- Modelled from the spec: the `tracepoint` crate's `TracePipeRaw` ring of
raw event records (the crate is absent from the snapshot); `clear` empties it
("write-1-byte to clear"). -/
abbrev TracePipeRaw := List (List Nat)

/-- `TracePipeRaw::clear`, modelled from the spec as emptying the buffer. -/
def TracePipeRaw.clear (_pipe : TracePipeRaw) : TracePipeRaw := []

/-- `<TraceFile as DebugFsFileOps>::write` (src/api/src/tracepoint/trace.rs:
24-30): when the buffer length is exactly 1 the global `TRACE_RAW_PIPE` is
cleared; in every case the result is `Ok(buf.len())`.  The function returns
the new pipe state paired with the syscall result. -/
def TraceFile.write (trace_raw_pipe : TracePipeRaw) (buf : List Nat) :
    TracePipeRaw × Except AxError Nat :=
  if buf.length = 1 then (trace_raw_pipe.clear, .ok buf.length)
  else (trace_raw_pipe, .ok buf.length)

/- ===================== tracepoint BPF callback (C6) ===================== -/

/-- The observable effect of one `TracePointCallBackFunc::call` invocation:
whether a VM fault was re-raised to the firing tracepoint site
(`propagated_fault`) and whether an error was logged. -/
structure CallOutcome where
  propagated_fault : Option String
  logged_error : Bool
deriving DecidableEq, Repr

/-- `TracePointPerfCallBack::call` (src/api/src/perf/tracepoint.rs:57-67) as
a function of the VM execution (`self.vm.execute_program`, passed in as
`execute_program` since the interpreter lives in the external `rbpf` crate):
an `Err` result is logged with `axlog::error!` and the function returns
normally; nothing is propagated in either case. -/
def TracePointPerfCallBack.call (execute_program : List Nat → Except String Nat)
    (entry : List Nat) : CallOutcome :=
  match execute_program entry with
  | .ok _ => { propagated_fault := none, logged_error := false }
  | .error _ => { propagated_fault := none, logged_error := true }

/- ===================== kretprobe instance stacks (C1, C10) ===================== -/

/-- A pending return-probe instance (`kprobe::retprobe::RetprobeInstance`,
declared by the external `kprobe` crate): the claim-relevant payload is the
original return address saved when the entry breakpoint fired. -/
structure RetprobeInstance where
  original_return_address : Nat
deriving DecidableEq, Repr

/-- The state touched by `KprobeAuxiliary::insert_kretprobe_instance_to_task`
and `pop_kretprobe_instance_from_task` (src/core/src/probe_aux.rs:207-234):
every task's `proc_data.kretprobe_instances` stack, the static fallback stack
`INSTANCE` used when no current thread exists, and which task (if any)
`current_may_uninit().try_as_thread()` yields.  Each `Vec` is embedded as a
list whose head is the `Vec`'s top, i.e. the most recently pushed element. -/
structure KprobeAuxState where
  kretprobe_instances : Nat → List RetprobeInstance
  instance_static : List RetprobeInstance
  current : Option Nat

/-- The stack that the auxiliary selects for context `c`: a task's
`kretprobe_instances` when a current thread exists, the static `INSTANCE`
stack otherwise. -/
def KprobeAuxState.selectedStack (s : KprobeAuxState) (c : Option Nat) :
    List RetprobeInstance :=
  match c with
  | some t => s.kretprobe_instances t
  | none => s.instance_static

/-- `KprobeAuxiliary::insert_kretprobe_instance_to_task`
(src/core/src/probe_aux.rs:207-220): push onto the current task's stack, or
onto the static fallback stack when there is no current thread. -/
def insert_kretprobe_instance_to_task (s : KprobeAuxState)
    (inst : RetprobeInstance) : KprobeAuxState :=
  match s.current with
  | some t =>
    { s with
      kretprobe_instances := fun t' =>
        if t' = t then inst :: s.kretprobe_instances t'
        else s.kretprobe_instances t' }
  | none => { s with instance_static := inst :: s.instance_static }

/-- `KprobeAuxiliary::pop_kretprobe_instance_from_task`
(src/core/src/probe_aux.rs:222-234): `pop().unwrap()` on the selected stack.
`none` models the `unwrap` panic on an empty stack. -/
def pop_kretprobe_instance_from_task (s : KprobeAuxState) :
    Option (RetprobeInstance × KprobeAuxState) :=
  match s.current with
  | some t =>
    match s.kretprobe_instances t with
    | [] => none
    | inst :: rest =>
      some (inst,
        { s with
          kretprobe_instances := fun t' =>
            if t' = t then rest else s.kretprobe_instances t' })
  | none =>
    match s.instance_static with
    | [] => none
    | inst :: rest => some (inst, { s with instance_static := rest })

/-- Pushing a list of instances in order (the entry breakpoints of a chain of
recursive self-calls, outermost first). -/
def pushAllInstances (s : KprobeAuxState) (l : List RetprobeInstance) :
    KprobeAuxState :=
  l.foldl insert_kretprobe_instance_to_task s

/-- Popping `n` instances in sequence (the trampoline breakpoints of the
matching returns), collecting them in pop order; `none` if any pop panics. -/
def popNInstances (s : KprobeAuxState) :
    Nat → Option (List RetprobeInstance × KprobeAuxState)
  | 0 => some ([], s)
  | n + 1 =>
    match pop_kretprobe_instance_from_task s with
    | none => none
    | some (inst, s') =>
      match popNInstances s' n with
      | none => none
      | some (l, s'') => some (inst :: l, s'')

/-- One invocation context of the kretprobe auxiliary: a push or a pop, each
executing with the given current-thread context (`none` = the static fallback
stack is selected). -/
inductive AuxOp where
  | push (ctx : Option Nat) (inst : RetprobeInstance)
  | pop (ctx : Option Nat)

/-- Running a trace of auxiliary operations; `none` as soon as some pop
panics on an empty stack. -/
def runAuxOps (s : KprobeAuxState) : List AuxOp → Option KprobeAuxState
  | [] => some s
  | .push c inst :: rest =>
    runAuxOps (insert_kretprobe_instance_to_task { s with current := c } inst) rest
  | .pop c :: rest =>
    match pop_kretprobe_instance_from_task { s with current := c } with
    | none => none
    | some (_, s') => runAuxOps s' rest

/-- The balance precondition on a trace: at every pop, the pops of the same
context seen so far are strictly outnumbered by the available instances
(initial stack depth plus matching pushes), i.e. every pop is preceded by a
matching push for the same task. -/
def balancedFrom (avail : Option Nat → Nat) : List AuxOp → Prop
  | [] => True
  | .push c _ :: rest =>
    balancedFrom (fun c' => if c' = c then avail c' + 1 else avail c') rest
  | .pop c :: rest =>
    0 < avail c ∧
      balancedFrom (fun c' => if c' = c then avail c' - 1 else avail c') rest

/- ===================== BPF-output perf event (C2) ===================== -/

/-- `BpfPerfEventWrapper` (src/api/src/perf/bpf.rs:15-19).  `enabled` is the
inner `BpfPerfEvent`'s flag queried by `self.inner.enabled()`; `mmap_done`
is `self.phys_addr.is_some()`; `ring_buffer` is the inner event's sample ring,
modelled from the spec ("appends to the ring buffer") because `kbpf_basic`'s
`BpfPerfEvent` is absent from the snapshot. -/
structure BpfPerfEventWrapper where
  enabled : Bool
  mmap_done : Bool
  ring_buffer : List (List Nat)
deriving DecidableEq, Repr

/-- `BpfPerfEventWrapper::write_event` (src/api/src/perf/bpf.rs:30-41):
before `mmap` has installed pages the data is dropped with `Ok(())`;
afterwards `self.inner.write_event(data)` appends unconditionally and
`self.poll_ready.wake()` runs only when `self.inner.enabled()`.  Returns the
new state paired with whether pollers were woken. -/
def BpfPerfEventWrapper.write_event (s : BpfPerfEventWrapper)
    (data : List Nat) : BpfPerfEventWrapper × Bool :=
  if s.mmap_done = false then (s, false)
  else ({ s with ring_buffer := s.ring_buffer ++ [data] }, s.enabled)

/- ===================== perf-event ioctl SET_BPF (C3) ===================== -/

/-- Identifier of a loaded BPF program object. -/
abbrev BpfProgId := Nat

/-- What a file-descriptor-table entry can hold, as far as the `SET_BPF`
ioctl path observes it: a `BpfProg` file (the only kind the downcast inside
`set_bpf_prog` accepts) or any other file-like object. -/
inductive FileKind where
  | bpfProgFile (id : BpfProgId)
  | otherFile
deriving DecidableEq, Repr

/-- The backing of a `PerfEvent` (the `Box<dyn PerfEventOps>` constructed by
`perf_event_open`): a `KprobePerfEvent` carrying its attached programs, a
`TracepointPerfEvent`, or a `BpfPerfEventWrapper`.  The `SET_BPF` ioctl
downcasts to `KprobePerfEvent` only. -/
inductive PerfEventBacking where
  | kprobeEvent (attached : List BpfProgId)
  | tracepointEvent
  | bpfOutputEvent
deriving DecidableEq, Repr

/-- `get_file_like` (src/api/src/file, absent from the snapshot): resolves a
file descriptor against the table, failing with a bad-descriptor error when
the slot is empty.  Modelled from the spec: probe/BPF/perf objects are
exposed through the file-descriptor table as opaque file-like objects. -/
def get_file_like (fd_table : Nat → Option FileKind) (fd : Nat) :
    Except AxError FileKind :=
  match fd_table fd with
  | some f => .ok f
  | none => .error .BadFileDescriptor

/-- Modelled from the spec: `KprobePerfEvent::set_bpf_prog`
(src/api/src/perf/kprobe.rs is absent from the snapshot) — "attaches the
given BPF program so that every future probe hit invokes it".  The attached
program list grows by the referenced program; a file that is not a BPF
program is rejected. -/
def KprobePerfEvent.set_bpf_prog (attached : List BpfProgId) (f : FileKind) :
    Except AxError (List BpfProgId) :=
  match f with
  | .bpfProgFile id => .ok (attached ++ [id])
  | .otherFile => .error .InvalidInput

/-- Modelled from the spec: the programs a future probe hit of the event
invokes are exactly the attached list of its kprobe backing. -/
def probe_hit_progs : PerfEventBacking → List BpfProgId
  | .kprobeEvent attached => attached
  | .tracepointEvent => []
  | .bpfOutputEvent => []

/-- The `PerfEventIoc::SetBpf` arm of `<PerfEvent as FileLike>::ioctl`
(src/api/src/perf/mod.rs:101-114): resolve the program fd with
`get_file_like`, downcast the backing to `KprobePerfEvent`
(`ok_or(AxError::InvalidInput)`), forward to `set_bpf_prog`, return `Ok(0)`.
The new backing is returned alongside; on any error the locked event is left
as it was, which the `Except` result expresses by not producing a new
backing. -/
def perf_event_ioctl_set_bpf (fd_table : Nat → Option FileKind)
    (backing : PerfEventBacking) (arg : Nat) :
    Except AxError (Nat × PerfEventBacking) :=
  match get_file_like fd_table arg with
  | .error e => .error e
  | .ok file =>
    match backing with
    | .kprobeEvent attached =>
      match KprobePerfEvent.set_bpf_prog attached file with
      | .error e => .error e
      | .ok attached' => .ok (0, .kprobeEvent attached')
    | .tracepointEvent => .error .InvalidInput
    | .bpfOutputEvent => .error .InvalidInput

/- ===================== tracepoint VM construction (C5) ===================== -/

/-- `u64::MAX`. -/
def u64MAX : Nat := 18446744073709551615

/-- The external `rbpf` crate's `EbpfVmRaw`, as configured by this
repository: the loaded program bytes, the registered helper table
(id ↦ helper function, kept as an insertion-ordered association list; the
keys come from a `BTreeMap` and are distinct), and the allowed-memory range
for unchecked pointer helpers as a half-open interval.  A fresh VM
(`EbpfVmRaw::new`) has no helpers and no allowed range. -/
structure EbpfVmRaw where
  prog : List Nat
  helpers : List (Nat × Nat)
  allowed_memory : Option (Nat × Nat)
deriving DecidableEq, Repr

/-- `EbpfVmRaw::new(Some(prog))`. -/
def EbpfVmRaw.new (prog : List Nat) : EbpfVmRaw :=
  { prog := prog, helpers := [], allowed_memory := none }

/-- `EbpfVmRaw::register_helper(key, function)`. -/
def EbpfVmRaw.register_helper (vm : EbpfVmRaw) (key fn : Nat) : EbpfVmRaw :=
  { vm with helpers := vm.helpers ++ [(key, fn)] }

/-- `EbpfVmRaw::register_allowed_memory(lo..hi)`. -/
def EbpfVmRaw.register_allowed_memory (vm : EbpfVmRaw) (lo hi : Nat) :
    EbpfVmRaw :=
  { vm with allowed_memory := some (lo, hi) }

/-- Helper lookup in the registered table (first binding of the id wins;
with distinct keys this is exactly map lookup). -/
def EbpfVmRaw.lookup_helper (vm : EbpfVmRaw) (key : Nat) : Option Nat :=
  (vm.helpers.find? (fun kv => kv.1 = key)).map Prod.snd

/-- Whether an address is inside the VM's allowed-memory range. -/
def EbpfVmRaw.mem_allowed (vm : EbpfVmRaw) (addr : Nat) : Bool :=
  match vm.allowed_memory with
  | none => false
  | some (lo, hi) => decide (lo ≤ addr) && decide (addr < hi)

/-- A tracepoint's registered raw-callback list (`callback_list` of the
external `tracepoint` crate): id ↦ the VM executed by the installed
`TracePointPerfCallBack`. -/
structure TracePoint where
  callbacks : List (Nat × EbpfVmRaw)
deriving DecidableEq, Repr

/-- `TracepointPerfEvent::set_bpf_prog` (src/api/src/perf/tracepoint.rs:
80-113): build `EbpfVmRaw::new` on the program's instructions, register every
`(key, value)` of `BPF_HELPER_FUN_SET` (passed in as `helper_set`, since the
`LazyInit` static is populated once at boot by `init_bpf`,
src/api/src/bpf/mod.rs:12-17), call `register_allowed_memory(0..u64::MAX)`,
and register the resulting callback on the tracepoint under a fresh id.
Returns the updated tracepoint and the constructed VM. -/
def TracepointPerfEvent.set_bpf_prog (helper_set : List (Nat × Nat))
    (tp : TracePoint) (next_id : Nat) (prog : List Nat) :
    TracePoint × EbpfVmRaw :=
  let vm0 := EbpfVmRaw.new prog
  let vm1 := helper_set.foldl (fun v kv => v.register_helper kv.1 kv.2) vm0
  let vm2 := vm1.register_allowed_memory 0 u64MAX
  ({ callbacks := tp.callbacks ++ [(next_id, vm2)] }, vm2)

/- ===================== trace-pipe blocking read (C4) ===================== -/

/-- A task waker identifier. -/
abbrev Waker := Nat

/-- The wait/wake state visible to `TracePipeFile::read`
(src/api/src/tracepoint/trace_pipe.rs): the global `TRACE_RAW_PIPE` of raw
records, and the wait-set the source actually registers the reader's waker
with — `proc_data.child_exit_event`, the process's child-exit `PollSet`.  The
source attaches no wait-set to the trace pipe itself. -/
structure TracePipeWaitState where
  trace_raw_pipe : List (List Nat)
  child_exit_event_waiters : List Waker
deriving DecidableEq, Repr

/-- Result of one poll of the blocked reader's future. -/
inductive PollOutcome where
  | ready
  | pending
deriving DecidableEq, Repr

/-- One evaluation of the `poll_fn` closure inside `TracePipeFile::read`
(src/api/src/tracepoint/trace_pipe.rs:38-45): `Ready` when the pipe is
non-empty (`self.readable()`); otherwise the waker is registered with
`proc_data.child_exit_event` and the future stays `Pending`. -/
def trace_pipe_read_poll (s : TracePipeWaitState) (w : Waker) :
    PollOutcome × TracePipeWaitState :=
  if s.trace_raw_pipe.isEmpty then
    (.pending,
      { s with child_exit_event_waiters := s.child_exit_event_waiters ++ [w] })
  else (.ready, s)

/-- `KernelTraceAux::trace_pipe_push_raw_record`
(src/api/src/tracepoint/mod.rs:79-82): `TRACE_RAW_PIPE.lock().push_event(..)`
and nothing else — no wake path is invoked.  Returns the new state together
with the set of wakers the call wakes. -/
def trace_pipe_push_raw_record (s : TracePipeWaitState) (buf : List Nat) :
    TracePipeWaitState × List Waker :=
  ({ s with trace_raw_pipe := s.trace_raw_pipe ++ [buf] }, [])

/- ===================== Theorems ===================== -/

/-- C8: every `BpfError` produced by a map or program operation is surfaced
through the `bpf` syscall as the corresponding typed host error —
`InvalidArgument` as `InvalidInput`, `NotFound` as `NotFound`, `NotSupported`
as `OperationNotSupported`, `NoSpace` as `NoMemory`, `TooBig` as `E2BIG`,
`TryAgain` as `EAGAIN` — and a successful map command returns `0`. -/
theorem C8_bpf_error_taxonomy_surfaced :
    (∀ u, bpf_map_cmd_surface (.ok u) = .ok 0) ∧
    (∀ e, bpf_map_cmd_surface (.error e) = .error (bpferror_to_axerr e)) ∧
    bpf_map_cmd_surface (.error .InvalidArgument) = .error .InvalidInput ∧
    bpf_map_cmd_surface (.error .NotFound) = .error .NotFound ∧
    bpf_map_cmd_surface (.error .NotSupported) = .error .OperationNotSupported ∧
    bpf_map_cmd_surface (.error .NoSpace) = .error .NoMemory ∧
    bpf_map_cmd_surface (.error .TooBig) = .error (.Other .E2BIG) ∧
    bpf_map_cmd_surface (.error .TryAgain) = .error (.Other .EAGAIN) :=
  ⟨fun _ => rfl, fun _ => rfl, rfl, rfl, rfl, rfl, rfl, rfl⟩

/-- C9: for every BPF map file handle, generic `read` and `write` always fail
with `OperationNotSupported` regardless of the buffer, `stat` always succeeds
with a default `Kstat`, and the reported path is `anon_inode:[bpf_map]`. -/
theorem C9_bpf_map_file_ops (m : BpfMap) (dst src : List Nat) :
    m.read dst = .error .OperationNotSupported ∧
    m.write src = .error .OperationNotSupported ∧
    m.stat = .ok Kstat.default ∧
    m.path = "anon_inode:[bpf_map]" :=
  ⟨rfl, rfl, rfl, rfl⟩

/-- C7: writing exactly one byte to `tracing/trace` clears the trace ring
buffer; a write of any other length leaves the buffer unchanged; every write
returns `Ok` with the full buffer length. -/
theorem C7_trace_write_one_byte_clears (pipe : TracePipeRaw) (buf : List Nat) :
    (TraceFile.write pipe buf).2 = .ok buf.length ∧
    (TraceFile.write pipe buf).1 = (if buf.length = 1 then [] else pipe) := by
  unfold TraceFile.write TracePipeRaw.clear
  by_cases h : buf.length = 1 <;> simp [h]

/-- C6: `TracePointPerfCallBack::call` always returns normally — it never
propagates a VM fault to the firing tracepoint site — and it logs an error
exactly when the BPF program's execution faults. -/
theorem C6_callback_fault_swallowed
    (execute_program : List Nat → Except String Nat) (entry : List Nat) :
    (TracePointPerfCallBack.call execute_program entry).propagated_fault = none ∧
    ((TracePointPerfCallBack.call execute_program entry).logged_error = true ↔
      ∃ e, execute_program entry = .error e) := by
  unfold TracePointPerfCallBack.call
  cases h : execute_program entry <;> simp

/-- C2 counterexample: a disabled BPF-output event (with its ring buffer
mapped) does not drop `write_event` data — the sample is still appended to
the ring buffer, refuting "when the event is disabled ... the ring buffer is
not grown". -/
theorem C2_write_event_disabled_still_buffers_cex :
    (⟨false, true, []⟩ : BpfPerfEventWrapper).enabled = false ∧
    (BpfPerfEventWrapper.write_event ⟨false, true, []⟩ [1]).1.ring_buffer = [[1]] := by
  decide

/-- C2 (amended): once `mmap` has installed pages, `write_event` appends the
sample to the ring buffer regardless of whether the event is enabled, and it
wakes pollers exactly when the event is enabled; before `mmap` the data is
dropped.  Disabling suppresses only the wake-up, never the buffering. -/
theorem C2_write_event_append_and_wake (s : BpfPerfEventWrapper)
    (data : List Nat) :
    (s.write_event data).1.ring_buffer =
      (if s.mmap_done then s.ring_buffer ++ [data] else s.ring_buffer) ∧
    (s.write_event data).2 = (s.mmap_done && s.enabled) ∧
    (s.write_event data).1.enabled = s.enabled ∧
    (s.write_event data).1.mmap_done = s.mmap_done := by
  unfold BpfPerfEventWrapper.write_event
  cases h : s.mmap_done <;> simp [h]

/-- C4 (the code at the failing input): with the trace pipe empty, the
blocked reader's poll suspends after registering its waker with
`proc_data.child_exit_event`; a producer's `trace_pipe_push_raw_record` then
fills the pipe but wakes no waker at all, so the reader is not woken by the
push — against the claim that the waker sits in a wait-set tied to the trace
pipe and is woken whenever a producer pushes a record. -/
theorem C4_push_wakes_no_reader :
    (trace_pipe_read_poll ⟨[], []⟩ 0).1 = .pending ∧
    (trace_pipe_read_poll ⟨[], []⟩ 0).2.child_exit_event_waiters = [0] ∧
    (trace_pipe_push_raw_record (trace_pipe_read_poll ⟨[], []⟩ 0).2 [1]).2 = [] ∧
    (trace_pipe_push_raw_record
        (trace_pipe_read_poll ⟨[], []⟩ 0).2 [1]).1.trace_raw_pipe = [[1]] := by
  decide

/-- `selectedStack` ignores the `current` field. -/
theorem selectedStack_set_current (s : KprobeAuxState) (c c' : Option Nat) :
    KprobeAuxState.selectedStack { s with current := c } c' =
      s.selectedStack c' := by
  cases c' <;> rfl

/-- `insert_kretprobe_instance_to_task` preserves the `current` field. -/
theorem insert_current (s : KprobeAuxState) (i : RetprobeInstance) :
    (insert_kretprobe_instance_to_task s i).current = s.current := by
  cases hc : s.current <;> simp [insert_kretprobe_instance_to_task, hc]

/-- The effect of an insert on every selected stack: the current context's
stack gains the instance on top, every other stack is untouched. -/
theorem selectedStack_insert (s : KprobeAuxState) (i : RetprobeInstance)
    (c' : Option Nat) :
    (insert_kretprobe_instance_to_task s i).selectedStack c' =
      if c' = s.current then i :: s.selectedStack c'
      else s.selectedStack c' := by
  cases hc : s.current with
  | none =>
    cases c' <;>
      simp [insert_kretprobe_instance_to_task, hc, KprobeAuxState.selectedStack]
  | some t =>
    cases c' with
    | none =>
      simp [insert_kretprobe_instance_to_task, hc, KprobeAuxState.selectedStack]
    | some t' =>
      by_cases h : t' = t <;>
        simp [insert_kretprobe_instance_to_task, hc,
          KprobeAuxState.selectedStack, h]

/-- A pop on a state whose selected stack is non-empty succeeds, returns its
top, preserves `current`, and removes exactly that top from the selected
stack, leaving all other stacks untouched. -/
theorem pop_spec (s : KprobeAuxState) (i : RetprobeInstance)
    (rest : List RetprobeInstance)
    (h : s.selectedStack s.current = i :: rest) :
    ∃ s', pop_kretprobe_instance_from_task s = some (i, s') ∧
      s'.current = s.current ∧
      ∀ c', s'.selectedStack c' =
        if c' = s.current then rest else s.selectedStack c' := by
  cases hc : s.current with
  | none =>
    rw [hc] at h
    simp only [KprobeAuxState.selectedStack] at h
    refine ⟨{ s with instance_static := rest }, ?_, ?_, ?_⟩
    · simp [pop_kretprobe_instance_from_task, hc, h]
    · simp [hc]
    · intro c'
      cases c' <;> simp [KprobeAuxState.selectedStack]
  | some t =>
    rw [hc] at h
    simp only [KprobeAuxState.selectedStack] at h
    refine ⟨{ s with kretprobe_instances := fun t' =>
        if t' = t then rest else s.kretprobe_instances t' }, ?_, ?_, ?_⟩
    · simp [pop_kretprobe_instance_from_task, hc, h]
    · simp [hc]
    · intro c'
      cases c' with
      | none => simp [KprobeAuxState.selectedStack]
      | some t' =>
        by_cases ht : t' = t <;> simp [KprobeAuxState.selectedStack, ht, h]

/-- Two auxiliary states agreeing on the current marker and on every selected
stack are equal (the `none` stack is the static one, `some t` is task `t`'s). -/
theorem KprobeAuxState.ext_of (s₁ s₂ : KprobeAuxState)
    (hcur : s₁.current = s₂.current)
    (hsel : ∀ c', s₁.selectedStack c' = s₂.selectedStack c') :
    s₁ = s₂ := by
  obtain ⟨k1, i1, c1⟩ := s₁
  obtain ⟨k2, i2, c2⟩ := s₂
  simp only [KprobeAuxState.mk.injEq]
  exact ⟨funext fun t => hsel (some t), hsel none, hcur⟩

/-- Popping right after an insert succeeds, returns the inserted instance and
restores the original state. -/
theorem pop_insert (s : KprobeAuxState) (i : RetprobeInstance) :
    pop_kretprobe_instance_from_task (insert_kretprobe_instance_to_task s i) =
      some (i, s) := by
  have hsel : (insert_kretprobe_instance_to_task s i).selectedStack
      (insert_kretprobe_instance_to_task s i).current =
      i :: s.selectedStack s.current := by
    rw [insert_current, selectedStack_insert]
    simp
  obtain ⟨s', hpop, hcur, hall⟩ :=
    pop_spec (insert_kretprobe_instance_to_task s i) i
      (s.selectedStack s.current) hsel
  rw [hpop]
  refine congrArg some (Prod.ext rfl ?_)
  refine KprobeAuxState.ext_of s' s ?_ ?_
  · rw [hcur, insert_current]
  · intro c'
    rw [hall c', insert_current, selectedStack_insert]
    by_cases hc : c' = s.current <;> simp [hc]

/-- Unfolding a pop sequence from the right: popping `n + 1` instances is
popping `n` and then popping once more from the resulting state. -/
theorem popNInstances_succ_right (s : KprobeAuxState) (n : Nat) :
    popNInstances s (n + 1) =
      match popNInstances s n with
      | none => none
      | some (l, s') =>
        match pop_kretprobe_instance_from_task s' with
        | none => none
        | some (i, s'') => some (l ++ [i], s'') := by
  induction n generalizing s with
  | zero =>
    simp only [popNInstances]
    cases pop_kretprobe_instance_from_task s with
    | none => rfl
    | some p => simp [popNInstances]
  | succ n ih =>
    conv_lhs => rw [popNInstances]
    conv_rhs => rw [popNInstances]
    cases hp : pop_kretprobe_instance_from_task s with
    | none => rfl
    | some p =>
      obtain ⟨i, s'⟩ := p
      dsimp only
      rw [ih s']
      cases hq : popNInstances s' n with
      | none => rfl
      | some q =>
        obtain ⟨l, s''⟩ := q
        dsimp only
        cases hr : pop_kretprobe_instance_from_task s'' with
        | none => rfl
        | some r =>
          obtain ⟨j, s₃⟩ := r
          dsimp only
          simp

/-- C1: return-probe instances form a per-task LIFO stack — with a fixed
current task, pushing the `N` instances of a depth-`N` chain of recursive
self-calls with `insert_kretprobe_instance_to_task` and then performing `N`
`pop_kretprobe_instance_from_task` pops returns exactly the pushed instances
in reverse push order (each still carrying its own original return address)
and restores the task's stack to its initial state. -/
theorem C1_kretprobe_per_task_lifo (s : KprobeAuxState) (t : Nat)
    (l : List RetprobeInstance) (h : s.current = some t) :
    popNInstances (pushAllInstances s l) l.length = some (l.reverse, s) ∧
    (popNInstances (pushAllInstances s l) l.length).map
        (fun p => p.1.map RetprobeInstance.original_return_address) =
      some ((l.map RetprobeInstance.original_return_address).reverse) := by
  have main : ∀ (l : List RetprobeInstance) (s : KprobeAuxState),
      s.current = some t →
      popNInstances (pushAllInstances s l) l.length = some (l.reverse, s) := by
    intro l
    induction l with
    | nil => intro s _; simp [pushAllInstances, popNInstances]
    | cons i tl ih =>
      intro s hs
      have hpush : pushAllInstances s (i :: tl) =
          pushAllInstances (insert_kretprobe_instance_to_task s i) tl := rfl
      have hcur : (insert_kretprobe_instance_to_task s i).current = some t := by
        rw [insert_current, hs]
      rw [hpush, List.length_cons, popNInstances_succ_right,
        ih (insert_kretprobe_instance_to_task s i) hcur]
      simp [pop_insert]
  refine ⟨main l s h, ?_⟩
  rw [main l s h]
  simp

/-- C10 (part of the claim): the pop panics exactly on an empty selected
stack. -/
theorem pop_none_iff_empty (s : KprobeAuxState) :
    s.selectedStack s.current = [] →
      pop_kretprobe_instance_from_task s = none := by
  intro h
  cases hc : s.current with
  | none =>
    rw [hc] at h
    simp only [KprobeAuxState.selectedStack] at h
    simp [pop_kretprobe_instance_from_task, hc, h]
  | some t =>
    rw [hc] at h
    simp only [KprobeAuxState.selectedStack] at h
    simp [pop_kretprobe_instance_from_task, hc, h]

/-- A balanced trace of pushes and pops never reaches the `unwrap` panic:
starting from per-context stack depths `fun c => (s.selectedStack c).length`,
`runAuxOps` always completes. -/
theorem runAuxOps_balanced (ops : List AuxOp) :
    ∀ s : KprobeAuxState,
      balancedFrom (fun c => (s.selectedStack c).length) ops →
      runAuxOps s ops ≠ none := by
  induction ops with
  | nil => intro s _; simp [runAuxOps]
  | cons op rest ih =>
    intro s hbal
    cases op with
    | push c i =>
      rw [runAuxOps]
      apply ih
      have hfun :
          (fun c' => (((insert_kretprobe_instance_to_task
              { s with current := c } i).selectedStack c')).length) =
          (fun c' => if c' = c then (s.selectedStack c').length + 1
            else (s.selectedStack c').length) := by
        funext c'
        rw [selectedStack_insert]
        by_cases hc : c' = c <;>
          simp [hc, selectedStack_set_current]
      rw [hfun]
      exact hbal
    | pop c =>
      rw [runAuxOps]
      obtain ⟨hpos, hrest⟩ :
          0 < (s.selectedStack c).length ∧
          balancedFrom (fun c' => if c' = c then (s.selectedStack c').length - 1
            else (s.selectedStack c').length) rest := hbal
      obtain ⟨i, tl, hstack⟩ : ∃ i tl, s.selectedStack c = i :: tl := by
        cases h : s.selectedStack c with
        | nil => rw [h] at hpos; exact absurd hpos (by simp)
        | cons a b => exact ⟨a, b, rfl⟩
      obtain ⟨s', hpop, hcur, hall⟩ :=
        pop_spec { s with current := c } i tl
          (by rw [selectedStack_set_current]; exact hstack)
      rw [hpop]
      apply ih
      have hfun : (fun c' => ((s'.selectedStack c')).length) =
          (fun c' => if c' = c then (s.selectedStack c').length - 1
            else (s.selectedStack c').length) := by
        funext c'
        rw [hall c']
        by_cases hc : c' = c <;>
          simp [hc, selectedStack_set_current, hstack]
      rw [hfun]
      exact hrest

/-- C10: `pop_kretprobe_instance_from_task` unwraps the popped element, so it
panics (modelled as `none`) whenever the selected stack — the current task's
stack, or the static fallback when no task is current — is empty; and under
the precondition that every pop is preceded by a matching push for the same
context, a run of pushes and pops never reaches that panic branch. -/
theorem C10_pop_unwrap_panic_unreachable :
    (∀ s : KprobeAuxState, s.selectedStack s.current = [] →
      pop_kretprobe_instance_from_task s = none) ∧
    (∀ (s : KprobeAuxState) (ops : List AuxOp),
      balancedFrom (fun c => (s.selectedStack c).length) ops →
      runAuxOps s ops ≠ none) :=
  ⟨pop_none_iff_empty, fun s ops h => runAuxOps_balanced ops s h⟩

/-- C3: for every PerfEvent file handle whose `SET_BPF` argument resolves to
a file, the ioctl succeeds only when the backing event is kprobe-backed — in
which case the referenced BPF program is attached so that every future probe
hit invokes it — and for any other backing it fails with `InvalidInput`,
producing no new backing, so the event is unchanged. -/
theorem C3_set_bpf_only_for_kprobe (fd_table : Nat → Option FileKind)
    (backing : PerfEventBacking) (arg : Nat) (f : FileKind)
    (hres : fd_table arg = some f) :
    ((∀ attached, backing ≠ .kprobeEvent attached) →
      perf_event_ioctl_set_bpf fd_table backing arg = .error .InvalidInput) ∧
    (∀ r, perf_event_ioctl_set_bpf fd_table backing arg = .ok r →
      ∃ attached id, backing = .kprobeEvent attached ∧ f = .bpfProgFile id ∧
        r = (0, .kprobeEvent (attached ++ [id])) ∧
        id ∈ probe_hit_progs r.2) := by
  have hget : get_file_like fd_table arg = .ok f := by
    simp [get_file_like, hres]
  constructor
  · intro hnk
    cases backing with
    | kprobeEvent attached => exact absurd rfl (hnk attached)
    | tracepointEvent => simp [perf_event_ioctl_set_bpf, hget]
    | bpfOutputEvent => simp [perf_event_ioctl_set_bpf, hget]
  · intro r hr
    cases backing with
    | kprobeEvent attached =>
      cases f with
      | bpfProgFile id =>
        have hr' : r = (0, PerfEventBacking.kprobeEvent (attached ++ [id])) := by
          simp [perf_event_ioctl_set_bpf, hget,
            KprobePerfEvent.set_bpf_prog] at hr
          exact hr.symm
        subst hr'
        exact ⟨attached, id, rfl, rfl, rfl, by simp [probe_hit_progs]⟩
      | otherFile =>
        simp [perf_event_ioctl_set_bpf, hget,
          KprobePerfEvent.set_bpf_prog] at hr
    | tracepointEvent => simp [perf_event_ioctl_set_bpf, hget] at hr
    | bpfOutputEvent => simp [perf_event_ioctl_set_bpf, hget] at hr

/-- Folding `register_helper` over a helper table appends the table to the
VM's helper list and changes nothing else. -/
theorem foldl_register_helper (hs : List (Nat × Nat)) (vm : EbpfVmRaw) :
    hs.foldl (fun v kv => v.register_helper kv.1 kv.2) vm =
      { vm with helpers := vm.helpers ++ hs } := by
  induction hs generalizing vm with
  | nil => simp
  | cons a tl ih =>
    rw [List.foldl_cons, ih]
    simp [EbpfVmRaw.register_helper]

/-- Association lookup: with pairwise-distinct keys, `find?` returns the
member binding. -/
theorem find_of_mem_of_nodup (l : List (Nat × Nat)) (k fn : Nat)
    (hnd : (l.map Prod.fst).Nodup) (hmem : (k, fn) ∈ l) :
    l.find? (fun kv => kv.1 = k) = some (k, fn) := by
  induction l with
  | nil => cases hmem
  | cons a tl ih =>
    have h' : a.1 ∉ tl.map Prod.fst ∧ (tl.map Prod.fst).Nodup := by
      rw [List.map_cons, List.nodup_cons] at hnd
      exact hnd
    obtain ⟨ha, htl⟩ := h'
    rcases List.mem_cons.mp hmem with heq | hmem'
    · subst heq
      simp [List.find?_cons]
    · have hak : ¬ a.1 = k := by
        intro hk
        exact ha (hk ▸ (List.mem_map.mpr ⟨(k, fn), hmem', rfl⟩))
      rw [List.find?_cons]
      simp only [hak, decide_eq_true_eq, if_false]
      · exact ih htl hmem'

/-- C5: the VM constructed by `TracepointPerfEvent::set_bpf_prog` for an
attached tracepoint callback is bound to the boot-populated helper table —
every `(id, helper)` pair of `BPF_HELPER_FUN_SET` is registered and
resolvable in the VM — and to the allowed-memory range `0..u64::MAX`
registered for its unchecked pointer helpers (so address `u64::MAX` itself is
outside the range while address `0` is inside); the constructed VM runs the
program's instructions and is the one installed in the tracepoint's callback
list. -/
theorem C5_vm_bound_to_helper_table_and_memory (helper_set : List (Nat × Nat))
    (tp : TracePoint) (next_id : Nat) (prog : List Nat)
    (hnd : (helper_set.map Prod.fst).Nodup) :
    (∀ k fn, (k, fn) ∈ helper_set →
      (TracepointPerfEvent.set_bpf_prog helper_set tp next_id
        prog).2.lookup_helper k = some fn) ∧
    (TracepointPerfEvent.set_bpf_prog helper_set tp next_id
      prog).2.allowed_memory = some (0, u64MAX) ∧
    (TracepointPerfEvent.set_bpf_prog helper_set tp next_id
      prog).2.mem_allowed u64MAX = false ∧
    (TracepointPerfEvent.set_bpf_prog helper_set tp next_id
      prog).2.mem_allowed 0 = true ∧
    (TracepointPerfEvent.set_bpf_prog helper_set tp next_id
      prog).2.prog = prog ∧
    (next_id, (TracepointPerfEvent.set_bpf_prog helper_set tp next_id
      prog).2) ∈
      (TracepointPerfEvent.set_bpf_prog helper_set tp next_id
        prog).1.callbacks := by
  have hvm : (TracepointPerfEvent.set_bpf_prog helper_set tp next_id prog).2 =
      { prog := prog, helpers := helper_set,
        allowed_memory := some (0, u64MAX) } := by
    unfold TracepointPerfEvent.set_bpf_prog
    dsimp only
    rw [foldl_register_helper]
    simp [EbpfVmRaw.new, EbpfVmRaw.register_allowed_memory]
  refine ⟨?_, ?_, ?_, ?_, ?_, ?_⟩
  · intro k fn hmem
    rw [hvm]
    unfold EbpfVmRaw.lookup_helper
    simp only
    rw [find_of_mem_of_nodup helper_set k fn hnd hmem]
    rfl
  · rw [hvm]
  · rw [hvm]
    simp [EbpfVmRaw.mem_allowed]
  · rw [hvm]
    simp [EbpfVmRaw.mem_allowed, u64MAX]
  · rw [hvm]
  · unfold TracepointPerfEvent.set_bpf_prog
    dsimp only
    simp

/-- Witness for C1 at a concrete state and depth-2 recursion: pushing the two
instances and popping twice yields them in reverse order and restores the
initial state. -/
theorem C1_kretprobe_per_task_lifo_witness :
    (⟨fun _ => [], [], some 0⟩ : KprobeAuxState).current = some 0 ∧
    popNInstances
        (pushAllInstances (⟨fun _ => [], [], some 0⟩ : KprobeAuxState)
          [⟨10⟩, ⟨20⟩]) 2 =
      some ([⟨20⟩, ⟨10⟩], (⟨fun _ => [], [], some 0⟩ : KprobeAuxState)) := by
  refine ⟨rfl, ?_⟩
  exact (C1_kretprobe_per_task_lifo
    (⟨fun _ => [], [], some 0⟩ : KprobeAuxState) 0 [⟨10⟩, ⟨20⟩] rfl).1

/-- Witness for C10: a pop with no current thread and an empty static stack
panics, while the balanced trace push-then-pop completes. -/
theorem C10_pop_unwrap_panic_unreachable_witness :
    pop_kretprobe_instance_from_task
        (⟨fun _ => [], [], none⟩ : KprobeAuxState) = none ∧
    runAuxOps (⟨fun _ => [], [], none⟩ : KprobeAuxState)
      [.push none ⟨5⟩, .pop none] ≠ none := by
  constructor
  · exact C10_pop_unwrap_panic_unreachable.1 _ rfl
  · exact C10_pop_unwrap_panic_unreachable.2
      (⟨fun _ => [], [], none⟩ : KprobeAuxState)
      [.push none ⟨5⟩, .pop none] ⟨by decide, trivial⟩

/-- Witness for C3 at a concrete fd table: with fd 3 bound to a BPF program
file, `SET_BPF` on a tracepoint-backed event fails with `InvalidInput`. -/
theorem C3_set_bpf_only_for_kprobe_witness :
    (fun n => if n = 3 then some (FileKind.bpfProgFile 7) else none) 3 =
      some (FileKind.bpfProgFile 7) ∧
    perf_event_ioctl_set_bpf
        (fun n => if n = 3 then some (FileKind.bpfProgFile 7) else none)
        .tracepointEvent 3 = .error .InvalidInput := by
  refine ⟨rfl, ?_⟩
  exact (C3_set_bpf_only_for_kprobe
      (fun n => if n = 3 then some (FileKind.bpfProgFile 7) else none)
      .tracepointEvent 3 (.bpfProgFile 7) rfl).1
    (fun attached h => nomatch h)

/-- Witness for C5 at a concrete two-entry helper table. -/
theorem C5_vm_bound_to_helper_table_and_memory_witness :
    (([(1, 100), (2, 200)] : List (Nat × Nat)).map Prod.fst).Nodup ∧
    (TracepointPerfEvent.set_bpf_prog [(1, 100), (2, 200)] ⟨[]⟩ 0
      [7]).2.lookup_helper 2 = some 200 ∧
    (TracepointPerfEvent.set_bpf_prog [(1, 100), (2, 200)] ⟨[]⟩ 0
      [7]).2.allowed_memory = some (0, u64MAX) := by
  have h := C5_vm_bound_to_helper_table_and_memory [(1, 100), (2, 200)]
    ⟨[]⟩ 0 [7] (by decide)
  exact ⟨by decide, h.1 2 200 (by decide), h.2.1⟩
